import Mathlib

/-!
Verification development for the MongoDB Extended Canonical v2.0.0 JSON
generator (`src/mongo/bson/generator_extended_canonical_2_0_0.h`).

The generator is a stateless class whose methods append bytes to a
caller-supplied `fmt::memory_buffer`.  We embed the buffer as a `List Char`
(every byte the generator itself emits is ASCII; payload bytes flow through
the escaping/base64 primitives, which we model at the same granularity) and
each `write<Kind>` method as a pure function returning the new buffer
contents.  External primitives that the header only consumes —
`str::escapeForJSON`'s per-character escape table and the float-to-text
primitive — are taken as explicit function parameters; `base64::encode` is
modelled concretely since a concrete test vector is needed.
-/

namespace MongoECV200

/-- The output buffer (`fmt::memory_buffer`), as the list of bytes appended so far. -/
abbrev Buffer := List Char

/-- The protected helper `appendTo(buffer, data)`: `buffer.append(data.begin(), data.end())`. -/
def appendTo (buffer : Buffer) (data : String) : Buffer :=
  buffer ++ data.data

/-- The `buffer.push_back(c)` operation of `fmt::memory_buffer`. -/
def push_back (buffer : Buffer) (c : Char) : Buffer :=
  buffer ++ [c]

/-- The streaming shape of `str::escapeForJSON(buffer, str)`: each input character
contributes its escape expansion (given by the per-character table `esc`, an external
primitive of `str_escape.h`) appended in order to the buffer. -/
def escapeForJSON (esc : Char → List Char) (buffer : Buffer) : List Char → Buffer
  | [] => buffer
  | c :: rest => escapeForJSON esc (buffer ++ esc c) rest

/-- Decimal digit character, `'0' + d` for `d < 10`. -/
def digitChar10 (d : Nat) : Char :=
  Char.ofNat (48 + d)

/-- Lowercase hexadecimal digit character: `'0' + d` for `d < 10`, `'a' + (d - 10)` above. -/
def hexDigitChar (d : Nat) : Char :=
  if d < 10 then Char.ofNat (48 + d) else Char.ofNat (87 + d)

/-- Decimal rendering of a natural number as produced by fmt's `{}` spec:
most significant digit first, no leading zeros, `"0"` for zero. -/
def natDecimal (n : Nat) : List Char :=
  if _h : n < 10 then [digitChar10 n]
  else natDecimal (n / 10) ++ [digitChar10 (n % 10)]
decreasing_by exact Nat.div_lt_self (by omega) (by omega)

/-- Lowercase hexadecimal rendering of a natural number as produced by fmt's `{:x}`
spec: minimal width, no zero padding. -/
def hexLower (n : Nat) : List Char :=
  if _h : n < 16 then [hexDigitChar n]
  else hexLower (n / 16) ++ [hexDigitChar (n % 16)]
decreasing_by exact Nat.div_lt_self (by omega) (by omega)

/-- Decimal rendering of a signed integer as produced by fmt's `{}` spec:
a leading minus sign for negative values, then the decimal digits. -/
def formatInt (val : Int) : List Char :=
  if val < 0 then '-' :: natDecimal val.natAbs else natDecimal val.natAbs

/-- Character of the standard base64 alphabet at index `n < 64`. -/
def b64char (n : Nat) : Char :=
  if n < 26 then Char.ofNat (65 + n)
  else if n < 52 then Char.ofNat (97 + (n - 26))
  else if n < 62 then Char.ofNat (48 + (n - 52))
  else if n = 62 then '+' else '/'

/-- Modelled from the spec: the `base64::encode` primitive (`util/base64.h`) is not
under `src/`; the spec names it as the standard base64 encoding primitive, so this
is RFC 4648 base64 with `=` padding over the payload bytes. -/
def base64chunks : List Nat → List Char
  | [] => []
  | [a] => [b64char (a / 4), b64char (a % 4 * 16), '=', '=']
  | [a, b] => [b64char (a / 4), b64char (a % 4 * 16 + b / 16), b64char (b % 16 * 4), '=']
  | a :: b :: c :: rest =>
      b64char (a / 4) :: b64char (a % 4 * 16 + b / 16) ::
        b64char (b % 16 * 4 + c / 64) :: b64char (c % 64) :: base64chunks rest

/-- The call `base64::encode(buffer, data)`: appends the base64 text of `data`. -/
def base64encode (buffer : Buffer) (data : List Nat) : Buffer :=
  buffer ++ base64chunks data

/-! ## The IEEE-754 double model

A finite double is `mantissa * 2 ^ (shift - 1074)` with `|mantissa| < 2 ^ 53` and
`0 ≤ shift ≤ 2045` (this covers subnormals, normals, and signed zeros; the largest
magnitude is `(2 ^ 53 - 1) * 2 ^ 971 = DBL_MAX`).  Values are compared through the
exact integer `mantissa * 2 ^ shift` (the value scaled by `2 ^ 1074`), which is an
order embedding of the finite doubles.  NaN and the infinities are separate
constructors; IEEE comparisons on NaN are false. -/

structure FiniteDouble where
  mantissa : Int
  shift : Nat
  mantissaBound : mantissa.natAbs < 2 ^ 53
  shiftBound : shift ≤ 2045

inductive Double where
  | nan : Double
  | inf (negative : Bool) : Double
  | finite (f : FiniteDouble) : Double

/-- The value of a non-NaN double scaled by `2 ^ 1074`, with the infinities mapped to
sentinels beyond every finite scaled value (`DBL_MAX` scaled is `(2^53-1) * 2^2045 < 2^2100`). -/
def Double.rank : Double → Int
  | .nan => 0
  | .inf negative => if negative then -(2 ^ 2100) else 2 ^ 2100
  | .finite f => f.mantissa * 2 ^ f.shift

def Double.isNaN : Double → Bool
  | .nan => true
  | _ => false

def Double.isInf : Double → Bool
  | .inf _ => true
  | _ => false

def Double.isFinite : Double → Bool
  | .finite _ => true
  | _ => false

/-- IEEE-754 `<=` on doubles: false whenever either side is NaN. -/
def dle (x y : Double) : Bool :=
  !x.isNaN && !y.isNaN && decide (x.rank ≤ y.rank)

/-- IEEE-754 `<` on doubles: false whenever either side is NaN. -/
def dlt (x y : Double) : Bool :=
  !x.isNaN && !y.isNaN && decide (x.rank < y.rank)

/-- `std::numeric_limits<double>::max()`, `(2 - 2^-52) * 2^1023 = (2^53 - 1) * 2^971`. -/
def maxDouble : Double :=
  .finite ⟨2 ^ 53 - 1, 2045, by decide, by decide⟩

/-- `std::numeric_limits<double>::lowest()`, the negation of `max()`. -/
def lowestDouble : Double :=
  .finite ⟨-(2 ^ 53 - 1), 2045, by decide, by decide⟩

/-- The double `+0.0`. -/
def zeroDouble : Double :=
  .finite ⟨0, 0, by decide, by decide⟩

/-! ## The remaining value types

These carry exactly the observations the generator makes of them; their
conversion primitives (`Decimal128::toString`, `OID::toString`) are external
and become fields holding the produced text. -/

structure Decimal128 where
  isNaN : Bool
  isInfinite : Bool
  isNegative : Bool
  toString : List Char

structure Date_t where
  toMillisSinceEpoch : Int

structure OID where
  toString : List Char

structure Timestamp where
  getSecs : Nat
  getInc : Nat

/-! ## The write operations

One function per `write<Kind>` method of `ExtendedCanonicalV200Generator`.
String payloads are `List Char`, binary payloads `List Nat` (bytes), the
binary subtype the underlying integer of `BinDataType`.  `esc` stands for
the external per-character JSON escape table consumed via
`str::escapeForJSON`, and `fmtD` for the external float-to-text primitive
behind fmt's `{}` on a `double`. -/

def writeNull (buffer : Buffer) : Buffer :=
  appendTo buffer "null"

def writeUndefined (buffer : Buffer) : Buffer :=
  appendTo buffer "\x7b\"$undefined\":true\x7d"

def writeString (esc : Char → List Char) (buffer : Buffer) (str : List Char) : Buffer :=
  push_back (escapeForJSON esc (push_back buffer '"') str) '"'

def writeBool (buffer : Buffer) (val : Bool) : Buffer :=
  if val then appendTo buffer "true" else appendTo buffer "false"

def writeInt32 (buffer : Buffer) (val : Int) : Buffer :=
  buffer ++ ("\x7b\"$numberInt\":\"").data ++ formatInt val ++ ("\"\x7d").data

def writeInt64 (buffer : Buffer) (val : Int) : Buffer :=
  buffer ++ ("\x7b\"$numberLong\":\"").data ++ formatInt val ++ ("\"\x7d").data

/-- The `writeDouble` method; `none` is the `uassert(51757, ...)` failure branch. -/
def writeDouble (fmtD : Double → List Char) (buffer : Buffer) (val : Double) :
    Option Buffer :=
  if dle lowestDouble val && dle val maxDouble then
    some (buffer ++ ("\x7b\"$numberDouble\":\"").data ++ fmtD val ++ ("\"\x7d").data)
  else if val.isNaN then
    some (appendTo buffer "\x7b\"$numberDouble\":\"NaN\"\x7d")
  else if val.isInf then
    if dlt zeroDouble val then
      some (appendTo buffer "\x7b\"$numberDouble\":\"Infinity\"\x7d")
    else
      some (appendTo buffer "\x7b\"$numberDouble\":\"-Infinity\"\x7d")
  else
    none

def writeDecimal128 (buffer : Buffer) (val : Decimal128) : Buffer :=
  if val.isNaN then
    appendTo buffer "\x7b\"$numberDecimal\":\"NaN\"\x7d"
  else if val.isInfinite then
    buffer ++ ("\x7b\"$numberDecimal\":\"").data ++
      (if val.isNegative then "-Infinity" else "Infinity").data ++ ("\"\x7d").data
  else
    buffer ++ ("\x7b\"$numberDecimal\":\"").data ++ val.toString ++ ("\"\x7d").data

def writeDate (buffer : Buffer) (val : Date_t) : Buffer :=
  buffer ++ ("\x7b\"$date\":\x7b\"$numberLong\":\"").data ++
    formatInt val.toMillisSinceEpoch ++ ("\"\x7d\x7d").data

def writeDBRef (esc : Char → List Char) (buffer : Buffer) (ref : List Char) (id : OID) :
    Buffer :=
  let b1 := appendTo buffer "\x7b\"$ref\":\""
  let b2 := escapeForJSON esc b1 ref
  b2 ++ ("\",\"$id\":\"").data ++ id.toString ++ ("\"\x7d").data

def writeOID (buffer : Buffer) (val : OID) : Buffer :=
  buffer ++ ("\x7b\"$oid\":\"").data ++ val.toString ++ ("\"\x7d").data

def writeTimestamp (buffer : Buffer) (val : Timestamp) : Buffer :=
  buffer ++ ("\x7b\"$timestamp\":\x7b\"t\":").data ++ natDecimal val.getSecs ++
    (",\"i\":").data ++ natDecimal val.getInc ++ ("\x7d\x7d").data

def writeBinData (buffer : Buffer) (data : List Nat) (type : Nat) : Buffer :=
  let b1 := appendTo buffer "\x7b\"$binary\":\x7b\"base64\":\""
  let b2 := base64encode b1 data
  b2 ++ ("\",\"subType\":\"").data ++ hexLower type ++ ("\"\x7d\x7d").data

def writeRegex (esc : Char → List Char) (buffer : Buffer)
    (pattern options : List Char) : Buffer :=
  let b1 := appendTo buffer "\x7b\"$regularExpression\":\x7b\"pattern\":\""
  let b2 := escapeForJSON esc b1 pattern
  let b3 := appendTo b2 "\",\"options\":\""
  let b4 := escapeForJSON esc b3 options
  appendTo b4 "\"\x7d\x7d"

def writeSymbol (esc : Char → List Char) (buffer : Buffer) (symbol : List Char) : Buffer :=
  let b1 := appendTo buffer "\x7b\"$symbol\":\""
  let b2 := escapeForJSON esc b1 symbol
  appendTo b2 "\"\x7d"

def writeCode (esc : Char → List Char) (buffer : Buffer) (code : List Char) : Buffer :=
  let b1 := appendTo buffer "\x7b\"$code\":\""
  let b2 := escapeForJSON esc b1 code
  appendTo b2 "\"\x7d"

/-- The `writeCodeWithScope` method. `printDoc buffer depth pretty` stands for the
collaborator call `scope.jsonStringGenerator(*this, depth, pretty, buffer)` on the
scope document (the spec's `printDocument(document, depth, pretty, buffer)` entry
point, partially applied to this generator and the scope document).  The source
passes the literal arguments `0` and `false`. -/
def writeCodeWithScope (esc : Char → List Char)
    (printDoc : Buffer → Nat → Bool → Buffer) (buffer : Buffer)
    (code : List Char) : Buffer :=
  let b1 := appendTo buffer "\x7b\"$code\":\""
  let b2 := escapeForJSON esc b1 code
  let b3 := appendTo b2 "\",\"$scope\":"
  let b4 := printDoc b3 0 false
  appendTo b4 "\x7d"

def writeMinKey (buffer : Buffer) : Buffer :=
  appendTo buffer "\x7b\"$minKey\":1\x7d"

def writeMaxKey (buffer : Buffer) : Buffer :=
  appendTo buffer "\x7b\"$maxKey\":1\x7d"

def writePadding (buffer : Buffer) : Buffer :=
  buffer

/-- A lowercase hexadecimal digit character. -/
def isLowerHexDigit (c : Char) : Bool :=
  c.isDigit || ('a' ≤ c && c ≤ 'f')

/-! ## Supporting lemmas -/

theorem escapeForJSON_shift (esc : Char → List Char) (s : List Char) :
    ∀ b x : Buffer, escapeForJSON esc (b ++ x) s = b ++ escapeForJSON esc x s := by
  induction s with
  | nil => intro b x; rfl
  | cons c rest ih =>
      intro b x
      rw [escapeForJSON, escapeForJSON, List.append_assoc]
      exact ih b (x ++ esc c)

theorem escapeForJSON_eq (esc : Char → List Char) (b : Buffer) (s : List Char) :
    escapeForJSON esc b s = b ++ escapeForJSON esc [] s := by
  simpa using escapeForJSON_shift esc s b []

theorem natDecimal_ne_nil (n : Nat) : natDecimal n ≠ [] := by
  rw [natDecimal]
  split <;> simp

theorem digitChar10_isDigit (d : Nat) (hd : d < 10) : (digitChar10 d).isDigit = true := by
  interval_cases d <;> decide

theorem digitChar10_ne_zero (d : Nat) (h1 : d ≠ 0) (hd : d < 10) : digitChar10 d ≠ '0' := by
  interval_cases d
  · exact absurd rfl h1
  all_goals decide

theorem natDecimal_head (n : Nat) (hn : n ≠ 0) : (natDecimal n).head? ≠ some '0' := by
  induction n using Nat.strong_induction_on with
  | _ n ih =>
    rw [natDecimal]
    split
    · rename_i h
      simpa using digitChar10_ne_zero n hn h
    · rename_i h
      obtain ⟨c, cs, hcc⟩ := List.exists_cons_of_ne_nil (natDecimal_ne_nil (n / 10))
      have hne := ih (n / 10) (Nat.div_lt_self (by omega) (by omega)) (by omega)
      rw [hcc] at hne ⊢
      simpa using hne

theorem natDecimal_digits (n : Nat) : ∀ c ∈ natDecimal n, c.isDigit = true := by
  induction n using Nat.strong_induction_on with
  | _ n ih =>
    rw [natDecimal]
    split
    · rename_i h
      simpa using digitChar10_isDigit n h
    · rename_i h
      intro c hc
      rcases List.mem_append.mp hc with hl | hr
      · exact ih (n / 10) (Nat.div_lt_self (by omega) (by omega)) c hl
      · have : c = digitChar10 (n % 10) := by simpa using hr
        rw [this]
        exact digitChar10_isDigit (n % 10) (Nat.mod_lt n (by omega))

theorem hexDigitChar_lower (d : Nat) (hd : d < 16) :
    isLowerHexDigit (hexDigitChar d) = true := by
  interval_cases d <;> decide

theorem hexLower_small (t : Nat) (h : t < 16) : hexLower t = [hexDigitChar t] := by
  rw [hexLower]
  simp [h]

theorem hexLower_two (t : Nat) (h16 : 16 ≤ t) (h256 : t < 256) :
    hexLower t = [hexDigitChar (t / 16), hexDigitChar (t % 16)] := by
  rw [hexLower, dif_neg (by omega), hexLower_small (t / 16) (by omega)]
  rfl

theorem finite_rank_le (f : FiniteDouble) :
    f.mantissa * 2 ^ f.shift ≤ (2 ^ 53 - 1) * 2 ^ 2045 := by
  have hb := f.mantissaBound
  have hm : f.mantissa ≤ 2 ^ 53 - 1 := by omega
  have hs : (2 : Int) ^ f.shift ≤ 2 ^ 2045 := pow_le_pow_right₀ (by norm_num) f.shiftBound
  have h1 : f.mantissa * 2 ^ f.shift ≤ (2 ^ 53 - 1) * 2 ^ f.shift :=
    mul_le_mul_of_nonneg_right hm (by positivity)
  have h2 : ((2 : Int) ^ 53 - 1) * 2 ^ f.shift ≤ (2 ^ 53 - 1) * 2 ^ 2045 :=
    mul_le_mul_of_nonneg_left hs (by norm_num)
  exact le_trans h1 h2

theorem finite_rank_ge (f : FiniteDouble) :
    -(2 ^ 53 - 1) * 2 ^ 2045 ≤ f.mantissa * 2 ^ f.shift := by
  have hb := f.mantissaBound
  have hm : -(2 ^ 53 - 1) ≤ f.mantissa := by omega
  have hs : (2 : Int) ^ f.shift ≤ 2 ^ 2045 := pow_le_pow_right₀ (by norm_num) f.shiftBound
  have h1 : (-(2 ^ 53 - 1) : Int) * 2 ^ f.shift ≤ f.mantissa * 2 ^ f.shift :=
    mul_le_mul_of_nonneg_right hm (by positivity)
  have h2 : (-(2 ^ 53 - 1) : Int) * 2 ^ 2045 ≤ (-(2 ^ 53 - 1)) * 2 ^ f.shift :=
    mul_le_mul_of_nonpos_left hs (by norm_num)
  exact le_trans h2 h1

theorem dle_lowest_finite (f : FiniteDouble) : dle lowestDouble (.finite f) = true := by
  simp only [dle, lowestDouble, Double.isNaN, Double.rank, Bool.not_false, Bool.true_and,
    decide_eq_true_eq]
  exact finite_rank_ge f

theorem dle_finite_max (f : FiniteDouble) : dle (.finite f) maxDouble = true := by
  simp only [dle, maxDouble, Double.isNaN, Double.rank, Bool.not_false, Bool.true_and,
    decide_eq_true_eq]
  exact finite_rank_le f

theorem guard_finite (f : FiniteDouble) :
    (dle lowestDouble (.finite f) && dle (.finite f) maxDouble) = true := by
  rw [dle_lowest_finite f, dle_finite_max f]
  rfl

/-! ## Claim C8 -/

/-- C8: the padding operation is always a no-op in canonical mode — for every
buffer state, writePadding leaves the buffer contents entirely unchanged (and,
being a pure function of the buffer, has no other effect). -/
theorem writePadding_noop (buffer : Buffer) : writePadding buffer = buffer :=
  rfl

/-! ## Claim C10 -/

/-- C10: for every input string (including the empty one) writeString appends
exactly one opening double-quote byte, then the JSON-escaped bytes of the string,
then one closing double-quote byte; the empty string appends exactly the two-byte
sequence of quotes, and the appended output begins and ends with a double-quote. -/
theorem writeString_shape (esc : Char → List Char) (buffer : Buffer) (str : List Char) :
    writeString esc buffer str =
      buffer ++ ['"'] ++ escapeForJSON esc [] str ++ ['"'] ∧
    writeString esc buffer [] = buffer ++ ['"', '"'] ∧
    (writeString esc [] str).head? = some '"' ∧
    (writeString esc [] str).getLast? = some '"' := by
  have hmain : ∀ bf : Buffer, writeString esc bf str =
      bf ++ ['"'] ++ escapeForJSON esc [] str ++ ['"'] := by
    intro bf
    rw [writeString, push_back, push_back, escapeForJSON_eq]
  refine ⟨hmain buffer, ?_, ?_, ?_⟩
  · rw [writeString, push_back, push_back]
    show escapeForJSON esc (buffer ++ ['"']) [] ++ ['"'] = buffer ++ ['"', '"']
    rw [escapeForJSON]
    simp
  · rw [hmain []]
    simp
  · rw [hmain []]
    rw [List.getLast?_append_of_ne_nil _ (by simp)]
    rfl

/-! ## Claim C7 -/

/-- C7: writeInt32 and writeInt64 render the value as plain decimal text with an
optional leading minus sign, no leading zeros and no digit grouping (every
emitted value character is a decimal digit), wrapped in the type tag; in
particular Int32(-7) and Int64(9000000000) produce the two concrete encodings. -/
theorem writeInt_decimal (buffer : Buffer) (v32 v64 : Int)
    (h32l : -(2 ^ 31) ≤ v32) (h32u : v32 < 2 ^ 31)
    (h64l : -(2 ^ 63) ≤ v64) (h64u : v64 < 2 ^ 63) :
    writeInt32 buffer v32 =
      buffer ++ ("\x7b\"$numberInt\":\"").data ++ formatInt v32 ++ ("\"\x7d").data ∧
    writeInt64 buffer v64 =
      buffer ++ ("\x7b\"$numberLong\":\"").data ++ formatInt v64 ++ ("\"\x7d").data ∧
    formatInt v32 = (if v32 < 0 then ['-'] else []) ++ natDecimal v32.natAbs ∧
    formatInt v64 = (if v64 < 0 then ['-'] else []) ++ natDecimal v64.natAbs ∧
    (∀ c ∈ natDecimal v32.natAbs, c.isDigit = true) ∧
    (∀ c ∈ natDecimal v64.natAbs, c.isDigit = true) ∧
    (v32 ≠ 0 → (natDecimal v32.natAbs).head? ≠ some '0') ∧
    (v64 ≠ 0 → (natDecimal v64.natAbs).head? ≠ some '0') ∧
    writeInt32 [] (-7) = ("\x7b\"$numberInt\":\"-7\"\x7d").data ∧
    writeInt64 [] 9000000000 = ("\x7b\"$numberLong\":\"9000000000\"\x7d").data := by
  have hfmt : ∀ v : Int, formatInt v = (if v < 0 then ['-'] else []) ++ natDecimal v.natAbs := by
    intro v
    rw [formatInt]
    split <;> rfl
  have hhead : ∀ v : Int, v ≠ 0 → (natDecimal v.natAbs).head? ≠ some '0' := by
    intro v hv
    exact natDecimal_head v.natAbs (by omega)
  refine ⟨rfl, rfl, hfmt v32, hfmt v64, natDecimal_digits _, natDecimal_digits _,
    hhead v32, hhead v64, ?_, ?_⟩
  · simp [writeInt32, formatInt, natDecimal, digitChar10]
  · simp [writeInt64, formatInt, natDecimal, digitChar10]

/-- Instantiation of the C7 theorem at the spec's concrete examples. -/
theorem writeInt_decimal_witness :
    writeInt32 [] (-7) = ("\x7b\"$numberInt\":\"-7\"\x7d").data ∧
    writeInt64 [] 9000000000 = ("\x7b\"$numberLong\":\"9000000000\"\x7d").data := by
  have h := writeInt_decimal [] (-7) 9000000000
    (by norm_num) (by norm_num) (by norm_num) (by norm_num)
  exact ⟨h.2.2.2.2.2.2.2.2.1, h.2.2.2.2.2.2.2.2.2⟩

/-! ## Claim C1 -/

/-- C1 counterexample: the source formats the subtype with fmt's unpadded `{:x}`
spec, so subtype 0 renders as the single digit "0" and the claimed two-digit
zero-padded output is not what writeBinData produces on bytes [0x01, 0x02]. -/
theorem writeBinData_padding_counterexample :
    writeBinData [] [1, 2] 0 ≠
      ("\x7b\"$binary\":\x7b\"base64\":\"AQI=\",\"subType\":\"00\"\x7d\x7d").data := by
  simp [writeBinData, base64encode, base64chunks, appendTo, hexLower, hexDigitChar, b64char]

/-- C1 amended: writeBinData renders the subtype byte as minimal-width lowercase
hexadecimal with no zero padding — one digit for subtypes below 0x10 and two
lowercase-hex digits for subtypes 0x10 through 0xff — and encoding
BinaryData(bytes=[0x01,0x02], subtype=0) appends exactly the bytes
of the text with base64 "AQI=" and subType "0". -/
theorem writeBinData_subtype (buffer : Buffer) (data : List Nat) (type : Nat) :
    writeBinData buffer data type =
      buffer ++ ("\x7b\"$binary\":\x7b\"base64\":\"").data ++ base64chunks data ++
        ("\",\"subType\":\"").data ++ hexLower type ++ ("\"\x7d\x7d").data ∧
    (type < 16 → hexLower type = [hexDigitChar type]) ∧
    (16 ≤ type → type < 256 →
      hexLower type = [hexDigitChar (type / 16), hexDigitChar (type % 16)]) ∧
    (type < 256 → ∀ c ∈ hexLower type, isLowerHexDigit c = true) ∧
    writeBinData buffer [1, 2] 0 =
      buffer ++ ("\x7b\"$binary\":\x7b\"base64\":\"AQI=\",\"subType\":\"0\"\x7d\x7d").data := by
  refine ⟨?_, hexLower_small type, hexLower_two type, ?_, ?_⟩
  · simp [writeBinData, base64encode, appendTo, List.append_assoc]
  · intro h256 c hc
    by_cases h16 : type < 16
    · rw [hexLower_small type h16] at hc
      have : c = hexDigitChar type := by simpa using hc
      rw [this]
      exact hexDigitChar_lower type (by omega)
    · rw [hexLower_two type (by omega) h256] at hc
      rcases (by simpa using hc : c = hexDigitChar (type / 16) ∨ c = hexDigitChar (type % 16)) with
        h | h <;> rw [h]
      · exact hexDigitChar_lower _ (by omega)
      · exact hexDigitChar_lower _ (Nat.mod_lt type (by omega))
  · simp [writeBinData, base64encode, base64chunks, appendTo, hexLower, hexDigitChar,
      b64char, List.append_assoc]

/-- Instantiation of the amended C1 theorem at concrete subtypes 0 and 0x80. -/
theorem writeBinData_subtype_witness :
    hexLower 0 = [hexDigitChar 0] ∧
    hexLower 128 = [hexDigitChar 8, hexDigitChar 0] ∧
    writeBinData [] [1, 2] 0 =
      ("\x7b\"$binary\":\x7b\"base64\":\"AQI=\",\"subType\":\"0\"\x7d\x7d").data := by
  have h0 := writeBinData_subtype [] [1, 2] 0
  have h128 := writeBinData_subtype [] [1, 2] 128
  refine ⟨h0.2.1 (by norm_num), ?_, by simpa using h0.2.2.2.2⟩
  have := h128.2.2.1 (by norm_num) (by norm_num)
  simpa using this

/-! ## Claim C2 -/

/-- Modelled from the spec: the claimed behavior of writeCodeWithScope for a call
occurring at nesting depth `d` — identical to the source except that the nested
document-printing call is claimed to receive depth `d + 1`. -/
def writeCodeWithScope_claimed (esc : Char → List Char)
    (printDoc : Buffer → Nat → Bool → Buffer) (buffer : Buffer)
    (code : List Char) (d : Nat) : Buffer :=
  let b1 := appendTo buffer "\x7b\"$code\":\""
  let b2 := escapeForJSON esc b1 code
  let b3 := appendTo b2 "\",\"$scope\":"
  let b4 := printDoc b3 (d + 1) false
  appendTo b4 "\x7d"

/-- A document printer that records in the buffer the depth argument it receives. -/
def depthProbe : Buffer → Nat → Bool → Buffer :=
  fun b d _ => b ++ [digitChar10 d]

/-- The identity escape table (escapes nothing). -/
def escId : Char → List Char :=
  fun c => [c]

/-- C2 counterexample: the nested document-printing call receives the constant
depth 0, not the parent depth incremented — already for a call at parent depth 0
the depth argument recorded by a probing printer differs from the claimed 1. -/
theorem writeCodeWithScope_depth_counterexample :
    writeCodeWithScope escId depthProbe [] [] ≠
      writeCodeWithScope_claimed escId depthProbe [] [] 0 := by
  simp [writeCodeWithScope, writeCodeWithScope_claimed, depthProbe, escId, appendTo,
    escapeForJSON, digitChar10]

/-- C2 amended: writeCodeWithScope invokes the caller's document-printing entry
point on the nested scope document with the constant depth 0 (the method receives
no depth and does not increment one) and with the pretty-print flag set to
non-pretty (false), then closes the enclosing object: the output is exactly the
emitted `$code` prefix, the printer's result at depth 0 / pretty false, and the
closing brace, so it is determined by the printer's behavior at those arguments
alone. -/
theorem writeCodeWithScope_call_shape (esc : Char → List Char)
    (printDoc printDoc2 : Buffer → Nat → Bool → Buffer) (buffer : Buffer)
    (code : List Char)
    (hagree : ∀ b, printDoc b 0 false = printDoc2 b 0 false) :
    writeCodeWithScope esc printDoc buffer code =
      appendTo (printDoc (appendTo (escapeForJSON esc
        (appendTo buffer "\x7b\"$code\":\"") code) "\",\"$scope\":") 0 false) "\x7d" ∧
    writeCodeWithScope esc printDoc buffer code =
      writeCodeWithScope esc printDoc2 buffer code := by
  constructor
  · rfl
  · show appendTo (printDoc _ 0 false) "\x7d" = appendTo (printDoc2 _ 0 false) "\x7d"
    rw [hagree]

/-- Instantiation of the amended C2 theorem at a concrete depth-probing printer. -/
theorem writeCodeWithScope_call_shape_witness :
    writeCodeWithScope escId depthProbe [] [] =
      appendTo (depthProbe (appendTo (escapeForJSON escId
        (appendTo [] "\x7b\"$code\":\"") []) "\",\"$scope\":") 0 false) "\x7d" :=
  (writeCodeWithScope_call_shape escId depthProbe depthProbe [] [] (fun _ => rfl)).1

/-! ## Claims C3, C4, C9: the double path -/

theorem guard_nan : (dle lowestDouble Double.nan && dle Double.nan maxDouble) = false := by
  rfl

theorem maxRank_lt_sentinel : ((2 : Int) ^ 53 - 1) * 2 ^ 2045 < 2 ^ 2100 := by
  have h1 : ((2 : Int) ^ 53 - 1) * 2 ^ 2045 < 2 ^ 53 * 2 ^ 2045 := by
    have : ((2 : Int) ^ 53 - 1) < 2 ^ 53 := by omega
    exact mul_lt_mul_of_pos_right this (by positivity)
  have h2 : (2 : Int) ^ 53 * 2 ^ 2045 = 2 ^ 2098 := by
    rw [← pow_add]
  have h3 : (2 : Int) ^ 2098 ≤ 2 ^ 2100 := pow_le_pow_right₀ (by norm_num) (by norm_num)
  calc ((2 : Int) ^ 53 - 1) * 2 ^ 2045 < 2 ^ 53 * 2 ^ 2045 := h1
    _ = 2 ^ 2098 := h2
    _ ≤ 2 ^ 2100 := h3

theorem dle_posInf_max : dle (Double.inf false) maxDouble = false := by
  simp only [dle, maxDouble, Double.isNaN, Double.rank, Bool.not_false, Bool.true_and,
    Bool.and_eq_false_imp, decide_eq_false_iff_not, not_le, if_neg, Bool.false_eq_true,
    ite_false]
  exact maxRank_lt_sentinel

theorem dle_lowest_negInf : dle lowestDouble (Double.inf true) = false := by
  simp only [dle, lowestDouble, Double.isNaN, Double.rank, Bool.not_false, Bool.true_and,
    Bool.and_eq_false_imp, decide_eq_false_iff_not, not_le, if_pos, ite_true]
  rw [neg_mul]
  exact neg_lt_neg maxRank_lt_sentinel

theorem guard_posInf :
    (dle lowestDouble (Double.inf false) && dle (Double.inf false) maxDouble) = false := by
  rw [dle_posInf_max, Bool.and_false]

theorem guard_negInf :
    (dle lowestDouble (Double.inf true) && dle (Double.inf true) maxDouble) = false := by
  rw [dle_lowest_negInf, Bool.false_and]

theorem dlt_zero_posInf : dlt zeroDouble (Double.inf false) = true := by
  simp only [dlt, zeroDouble, Double.isNaN, Double.rank, Bool.not_false, Bool.true_and,
    decide_eq_true_eq, if_neg, Bool.false_eq_true, ite_false]
  positivity

theorem dlt_zero_negInf : dlt zeroDouble (Double.inf true) = false := by
  simp only [dlt, zeroDouble, Double.isNaN, Double.rank, Bool.not_false, Bool.true_and,
    decide_eq_false_iff_not, not_lt, if_pos, ite_true]
  have : (0 : Int) * 2 ^ 0 = 0 := by ring
  rw [this]
  have h2 : (0 : Int) < 2 ^ 2100 := by positivity
  omega

/-- Modelled from the spec: the order of checks the spec describes for the Double
kind — NaN first, then signed infinity, then numeric formatting of the (finite)
value — with no failure branch. -/
def writeDouble_specOrdered (fmtD : Double → List Char) (buffer : Buffer)
    (val : Double) : Buffer :=
  if val.isNaN then
    appendTo buffer "\x7b\"$numberDouble\":\"NaN\"\x7d"
  else if val.isInf then
    if dlt zeroDouble val then
      appendTo buffer "\x7b\"$numberDouble\":\"Infinity\"\x7d"
    else
      appendTo buffer "\x7b\"$numberDouble\":\"-Infinity\"\x7d"
  else
    buffer ++ ("\x7b\"$numberDouble\":\"").data ++ fmtD val ++ ("\"\x7d").data

/-- C3: the uassert(51757, "cannot be represented in JSON") branch of writeDouble
is unreachable — for every double value (NaN, either infinity, or any finite
double), every float-formatting primitive and every buffer, writeDouble returns a
result and never reaches the failure branch, so the double path of the encoder is
total. -/
theorem writeDouble_total (fmtD : Double → List Char) (buffer : Buffer) (val : Double) :
    (writeDouble fmtD buffer val).isSome = true := by
  cases val with
  | nan =>
    simp [writeDouble, guard_nan, Double.isNaN]
  | inf negative =>
    cases negative
    · simp [writeDouble, guard_posInf, Double.isNaN, Double.isInf, dlt_zero_posInf]
    · simp [writeDouble, guard_negInf, Double.isNaN, Double.isInf, dlt_zero_negInf]
  | finite f =>
    simp [writeDouble, guard_finite f]

/-- C4: the three special textual forms take precedence over numeric formatting:
writeDouble on NaN, +infinity and -infinity appends exactly the corresponding
fixed byte sequences, and no special (non-finite) input ever reaches the numeric
formatting path — on such inputs the output does not depend on the
float-formatting primitive at all. -/
theorem writeDouble_specials (fmtD fmtD2 : Double → List Char) (buffer : Buffer) :
    writeDouble fmtD buffer Double.nan =
      some (buffer ++ ("\x7b\"$numberDouble\":\"NaN\"\x7d").data) ∧
    writeDouble fmtD buffer (Double.inf false) =
      some (buffer ++ ("\x7b\"$numberDouble\":\"Infinity\"\x7d").data) ∧
    writeDouble fmtD buffer (Double.inf true) =
      some (buffer ++ ("\x7b\"$numberDouble\":\"-Infinity\"\x7d").data) ∧
    (∀ val : Double, val.isFinite = false →
      writeDouble fmtD buffer val = writeDouble fmtD2 buffer val) := by
  refine ⟨?_, ?_, ?_, ?_⟩
  · simp [writeDouble, guard_nan, Double.isNaN, appendTo]
  · simp [writeDouble, guard_posInf, Double.isNaN, Double.isInf, dlt_zero_posInf, appendTo]
  · simp [writeDouble, guard_negInf, Double.isNaN, Double.isInf, dlt_zero_negInf, appendTo]
  · intro val hval
    cases val with
    | nan => rfl
    | inf negative =>
      cases negative
      · simp [writeDouble, guard_posInf, Double.isNaN, Double.isInf]
      · simp [writeDouble, guard_negInf, Double.isNaN, Double.isInf]
    | finite f => simp [Double.isFinite] at hval

/-- Instantiation of the C4 theorem at concrete formatting primitives. -/
theorem writeDouble_specials_witness :
    writeDouble (fun _ => []) [] Double.nan =
      some (("\x7b\"$numberDouble\":\"NaN\"\x7d").data) ∧
    writeDouble (fun _ => []) [] Double.nan =
      writeDouble (fun _ => ['1']) [] Double.nan := by
  have h := writeDouble_specials (fun _ => []) (fun _ => ['1']) []
  exact ⟨by simpa using h.1, h.2.2.2 Double.nan rfl⟩

/-- C9: the first guard of writeDouble (lowest <= val <= max under IEEE-754
comparison semantics) holds exactly for the finite doubles — NaN fails every
comparison and each infinity falls outside one of the two bounds — and therefore
writeDouble is extensionally equal to the spec-ordered variant that checks NaN
first, then signed infinity, then formats the finite value. -/
theorem writeDouble_guard_iff_finite :
    (∀ val : Double,
      ((dle lowestDouble val && dle val maxDouble) = true ↔ val.isFinite = true)) ∧
    (∀ (fmtD : Double → List Char) (buffer : Buffer) (val : Double),
      writeDouble fmtD buffer val = some (writeDouble_specOrdered fmtD buffer val)) := by
  constructor
  · intro val
    cases val with
    | nan => simp [guard_nan, Double.isFinite]
    | inf negative =>
      cases negative
      · simp [guard_posInf, Double.isFinite]
      · simp [guard_negInf, Double.isFinite]
    | finite f => simp [guard_finite f, Double.isFinite]
  · intro fmtD buffer val
    cases val with
    | nan =>
      simp [writeDouble, writeDouble_specOrdered, guard_nan, Double.isNaN]
    | inf negative =>
      cases negative
      · simp [writeDouble, writeDouble_specOrdered, guard_posInf, Double.isNaN, Double.isInf,
          dlt_zero_posInf]
      · simp [writeDouble, writeDouble_specOrdered, guard_negInf, Double.isNaN, Double.isInf,
          dlt_zero_negInf]
    | finite f =>
      simp [writeDouble, writeDouble_specOrdered, guard_finite f, Double.isNaN, Double.isInf]

/-! ## Claim C5 -/

/-- C5: every write operation of the encoder is append-only — for every input
value and every prior buffer state, the buffer contents after the call equal the
prior contents followed by exactly the bytes the operation produces on an empty
buffer (the prior contents are an unchanged prefix).  The embedding is purely
functional, so the operations have no observable effect beyond the returned
(appended) buffer and do not mutate their input values; for the one recursive
case the collaborating document printer is assumed append-only as well. -/
theorem write_append_only (esc : Char → List Char) (fmtD : Double → List Char)
    (printDoc : Buffer → Nat → Bool → Buffer) (buffer : Buffer)
    (str code ref pattern options symbol : List Char) (bv : Bool) (i : Int)
    (dec : Decimal128) (date : Date_t) (oid : OID) (ts : Timestamp)
    (data : List Nat) (type : Nat) (dval : Double)
    (hprint : ∀ (bf : Buffer) (d : Nat) (p : Bool), printDoc bf d p = bf ++ printDoc [] d p) :
    writeNull buffer = buffer ++ writeNull [] ∧
    writeUndefined buffer = buffer ++ writeUndefined [] ∧
    writeString esc buffer str = buffer ++ writeString esc [] str ∧
    writeBool buffer bv = buffer ++ writeBool [] bv ∧
    writeInt32 buffer i = buffer ++ writeInt32 [] i ∧
    writeInt64 buffer i = buffer ++ writeInt64 [] i ∧
    writeDouble fmtD buffer dval =
      Option.map (fun out => buffer ++ out) (writeDouble fmtD [] dval) ∧
    writeDecimal128 buffer dec = buffer ++ writeDecimal128 [] dec ∧
    writeDate buffer date = buffer ++ writeDate [] date ∧
    writeDBRef esc buffer ref oid = buffer ++ writeDBRef esc [] ref oid ∧
    writeOID buffer oid = buffer ++ writeOID [] oid ∧
    writeTimestamp buffer ts = buffer ++ writeTimestamp [] ts ∧
    writeBinData buffer data type = buffer ++ writeBinData [] data type ∧
    writeRegex esc buffer pattern options = buffer ++ writeRegex esc [] pattern options ∧
    writeSymbol esc buffer symbol = buffer ++ writeSymbol esc [] symbol ∧
    writeCode esc buffer code = buffer ++ writeCode esc [] code ∧
    writeCodeWithScope esc printDoc buffer code =
      buffer ++ writeCodeWithScope esc printDoc [] code ∧
    writeMinKey buffer = buffer ++ writeMinKey [] ∧
    writeMaxKey buffer = buffer ++ writeMaxKey [] ∧
    writePadding buffer = buffer ++ writePadding [] := by
  have h2 : ∀ x : Buffer, appendTo (printDoc x 0 false) "\x7d" =
      x ++ printDoc [] 0 false ++ ("\x7d").data := by
    intro x
    rw [appendTo, hprint x 0 false]
  refine ⟨?_, ?_, ?_, ?_, ?_, ?_, ?_, ?_, ?_, ?_, ?_, ?_, ?_, ?_, ?_, ?_, ?_, ?_, ?_, ?_⟩
  · simp [writeNull, appendTo]
  · simp [writeUndefined, appendTo]
  · simp [writeString, push_back, escapeForJSON_shift, List.append_assoc]
  · cases bv <;> simp [writeBool, appendTo]
  · simp [writeInt32, List.append_assoc]
  · simp [writeInt64, List.append_assoc]
  · cases dval with
    | nan => simp [writeDouble, guard_nan, Double.isNaN, appendTo]
    | inf negative =>
      cases negative
      · simp [writeDouble, guard_posInf, Double.isNaN, Double.isInf, dlt_zero_posInf, appendTo]
      · simp [writeDouble, guard_negInf, Double.isNaN, Double.isInf, dlt_zero_negInf, appendTo]
    | finite f => simp [writeDouble, guard_finite f, List.append_assoc]
  · cases hn : dec.isNaN <;> cases hi : dec.isInfinite <;>
      simp [writeDecimal128, hn, hi, appendTo, List.append_assoc]
  · simp [writeDate, List.append_assoc]
  · simp [writeDBRef, appendTo, escapeForJSON_shift, List.append_assoc]
  · simp [writeOID, List.append_assoc]
  · simp [writeTimestamp, List.append_assoc]
  · simp [writeBinData, base64encode, appendTo, List.append_assoc]
  · simp [writeRegex, appendTo, escapeForJSON_shift, List.append_assoc]
  · simp [writeSymbol, appendTo, escapeForJSON_shift, List.append_assoc]
  · simp [writeCode, appendTo, escapeForJSON_shift, List.append_assoc]
  · simp only [writeCodeWithScope]
    rw [h2, h2]
    simp [appendTo, escapeForJSON_shift, List.append_assoc]
  · simp [writeMinKey, appendTo]
  · simp [writeMaxKey, appendTo]
  · simp [writePadding]

/-- Instantiation of the C5 theorem at a concrete append-only document printer. -/
theorem write_append_only_witness :
    writeNull ['x'] = ['x'] ++ writeNull [] := by
  have hprint : ∀ (bf : Buffer) (d : Nat) (p : Bool),
      depthProbe bf d p = bf ++ depthProbe [] d p := by
    intro bf d p
    simp [depthProbe]
  have h := write_append_only escId (fun _ => []) depthProbe ['x'] [] [] [] [] [] [] true 0
    ⟨false, false, false, []⟩ ⟨0⟩ ⟨[]⟩ ⟨0, 0⟩ [] 0 Double.nan hprint
  exact h.1

/-! ## Claim C6 -/

/-- C6: encoding is deterministic — for every write operation, two calls on equal
input values and equal starting buffer contents produce byte-identical buffers
(two-run equality over the embedded operations). -/
theorem write_deterministic (esc : Char → List Char) (fmtD : Double → List Char)
    (printDoc : Buffer → Nat → Bool → Buffer) (b1 b2 : Buffer)
    (str1 str2 ref1 ref2 pat1 pat2 opt1 opt2 : List Char) (bool1 bool2 : Bool)
    (i1 i2 : Int) (dv1 dv2 : Double) (dec1 dec2 : Decimal128)
    (date1 date2 : Date_t) (oid1 oid2 : OID) (ts1 ts2 : Timestamp)
    (data1 data2 : List Nat) (ty1 ty2 : Nat)
    (hb : b1 = b2) (hstr : str1 = str2) (href : ref1 = ref2) (hpat : pat1 = pat2)
    (hopt : opt1 = opt2) (hbool : bool1 = bool2) (hi : i1 = i2) (hdv : dv1 = dv2)
    (hdec : dec1 = dec2) (hdate : date1 = date2) (hoid : oid1 = oid2) (hts : ts1 = ts2)
    (hdata : data1 = data2) (hty : ty1 = ty2) :
    writeNull b1 = writeNull b2 ∧
    writeUndefined b1 = writeUndefined b2 ∧
    writeString esc b1 str1 = writeString esc b2 str2 ∧
    writeBool b1 bool1 = writeBool b2 bool2 ∧
    writeInt32 b1 i1 = writeInt32 b2 i2 ∧
    writeInt64 b1 i1 = writeInt64 b2 i2 ∧
    writeDouble fmtD b1 dv1 = writeDouble fmtD b2 dv2 ∧
    writeDecimal128 b1 dec1 = writeDecimal128 b2 dec2 ∧
    writeDate b1 date1 = writeDate b2 date2 ∧
    writeDBRef esc b1 ref1 oid1 = writeDBRef esc b2 ref2 oid2 ∧
    writeOID b1 oid1 = writeOID b2 oid2 ∧
    writeTimestamp b1 ts1 = writeTimestamp b2 ts2 ∧
    writeBinData b1 data1 ty1 = writeBinData b2 data2 ty2 ∧
    writeRegex esc b1 pat1 opt1 = writeRegex esc b2 pat2 opt2 ∧
    writeSymbol esc b1 str1 = writeSymbol esc b2 str2 ∧
    writeCode esc b1 str1 = writeCode esc b2 str2 ∧
    writeCodeWithScope esc printDoc b1 str1 = writeCodeWithScope esc printDoc b2 str2 ∧
    writeMinKey b1 = writeMinKey b2 ∧
    writeMaxKey b1 = writeMaxKey b2 ∧
    writePadding b1 = writePadding b2 := by
  subst hb hstr href hpat hopt hbool hi hdv hdec hdate hoid hts hdata hty
  exact ⟨rfl, rfl, rfl, rfl, rfl, rfl, rfl, rfl, rfl, rfl, rfl, rfl, rfl, rfl, rfl, rfl,
    rfl, rfl, rfl, rfl⟩

/-- Instantiation of the C6 theorem at concrete equal inputs. -/
theorem write_deterministic_witness :
    writeNull ['x'] = writeNull ['x'] := by
  have h := write_deterministic escId (fun _ => []) depthProbe ['x'] ['x']
    [] [] [] [] [] [] [] [] true true 0 0 Double.nan Double.nan
    ⟨false, false, false, []⟩ ⟨false, false, false, []⟩ ⟨0⟩ ⟨0⟩ ⟨[]⟩ ⟨[]⟩
    ⟨0, 0⟩ ⟨0, 0⟩ [] [] 0 0
    rfl rfl rfl rfl rfl rfl rfl rfl rfl rfl rfl rfl rfl rfl
  exact h.1

end MongoECV200
